/-
Verification of the FieldViz OCR-to-structured-table reconstruction pipeline.

This file gives a shallow embedding, in Lean 4, of the table-reconstruction
code of the FieldViz repository:
  * the calibrated gas-compressor extractor, the specialized table parser and
    the fallback line parser (the specialized OCR component file), and
  * the generic header-inferred table parser of
    src/frontend/components/EnhancedOilFieldOCR.tsx,
and proves or refutes the testable properties stated in the specification.

Modelling conventions:
  * JavaScript numbers are modelled as exact rationals (ℚ).  All arithmetic
    in the embedded code goes through the kernel-computable wrappers
    qadd / qsub / qmul / qdiv / qabs below (proved equal to the ordinary ℚ
    operations), so that concrete runs of the pipeline can be evaluated by
    the kernel.
  * JavaScript strings are Lean Strings; the regular expressions used by the
    source are modelled by explicit character-list matchers with the same
    leftmost-match semantics.
  * JavaScript objects used as string-keyed maps are association lists with
    in-place update (insertJS), matching JS insertion-order semantics.
  * The impure bits (current date, React state setters, console logging,
    try/catch around total code) are modelled as explicit parameters or
    dropped, as noted at each definition.
-/
import Mathlib

namespace FieldViz

/-! ### Kernel-computable rational arithmetic

`Rat.divInt` and the comparison instances on `ℚ` reduce in the kernel, but
the Mathlib field operations do not.  The embedded code therefore uses the
following wrappers, each proved equal to the corresponding `ℚ` operation. -/

/-- Addition on ℚ, computed on numerators/denominators via `Rat.divInt`. -/
def qadd (a b : ℚ) : ℚ := Rat.divInt (a.num * b.den + b.num * a.den) (a.den * b.den)

/-- Subtraction on ℚ, computed via `Rat.divInt`. -/
def qsub (a b : ℚ) : ℚ := Rat.divInt (a.num * b.den - b.num * a.den) (a.den * b.den)

/-- Multiplication on ℚ, computed via `Rat.divInt`. -/
def qmul (a b : ℚ) : ℚ := Rat.divInt (a.num * b.num) (a.den * b.den)

/-- Division on ℚ, computed via `Rat.divInt` (division by zero gives 0,
as for the Mathlib `/`). -/
def qdiv (a b : ℚ) : ℚ := Rat.divInt (a.num * b.den) (a.den * b.num)

/-- Absolute value on ℚ, computed via `Rat.divInt`. -/
def qabs (a : ℚ) : ℚ := Rat.divInt |a.num| a.den

/-- JavaScript truthiness fallback `a || b` on numbers (0 is falsy;
NaN does not arise in the embedded code paths). -/
def jsOr (a b : ℚ) : ℚ := if a = 0 then b else a

/-- JavaScript truthiness fallback `a || b` on strings (the empty string is falsy). -/
def jsOrS (a b : String) : String := if a = "" then b else a

/-! ### String utilities

The Lean core string functions (`String.trim`, `String.splitOn`, …) do not
reduce in the kernel, so the embedding uses its own character-list versions,
matching the JavaScript behaviour on the ASCII inputs the pipeline sees. -/

/-- JavaScript `String.prototype.trim` (ASCII whitespace). -/
def jsTrim (s : String) : String :=
  String.mk (((s.data.dropWhile Char.isWhitespace).reverse.dropWhile
      Char.isWhitespace).reverse)

/-- JavaScript `String.prototype.split('\n')`. -/
def splitLinesGo : List Char → List Char → List String
  | [], acc => [String.mk acc.reverse]
  | c :: cs, acc =>
      if c = '\n' then String.mk acc.reverse :: splitLinesGo cs []
      else splitLinesGo cs (c :: acc)

def splitLines (s : String) : List String := splitLinesGo s.data []

/-- JavaScript `String.prototype.includes` for a single character. -/
def strContainsChar (s : String) (c : Char) : Bool := s.data.contains c

/-- Scan for `sub` starting at every suffix. -/
def strIncludesGo (sub : List Char) : List Char → Bool
  | [] => sub.isPrefixOf ([] : List Char)
  | c :: cs => sub.isPrefixOf (c :: cs) || strIncludesGo sub cs

/-- Substring test on character lists (JavaScript `String.prototype.includes`). -/
def strIncludes (s sub : String) : Bool := strIncludesGo sub.data s.data

/-- JavaScript `String.prototype.toLowerCase` (ASCII). -/
def toLowerStr (s : String) : String := String.mk (s.data.map Char.toLower)

/-! ### Regular-expression models

Each regular expression used by the source is modelled by a dedicated
matcher with JavaScript leftmost-match semantics. -/

/-- Full-string match of `/^\d{1,2}[\.:]\d{2}$/` (the time-of-day row
identifier pattern). -/
def isTimePattern (s : String) : Bool :=
  match s.data with
  | [a, sep, x, y] =>
      a.isDigit && (sep == '.' || sep == ':') && x.isDigit && y.isDigit
  | [a, b, sep, x, y] =>
      a.isDigit && b.isDigit && (sep == '.' || sep == ':') && x.isDigit && y.isDigit
  | _ => false

/-- Full-string match of `/^\d{1,2}$/` (the degraded bare-number identifier). -/
def isShortNum (s : String) : Bool :=
  match s.data with
  | [a] => a.isDigit
  | [a, b] => a.isDigit && b.isDigit
  | _ => false

/-- Greedy match of `\d+\.?\d*` anchored at the head of the list, which must
start with a digit.  Returns the matched text and the remaining characters. -/
def matchNumAt (cs : List Char) : String × List Char :=
  let d1 := cs.takeWhile Char.isDigit
  let r1 := cs.dropWhile Char.isDigit
  match r1 with
  | '.' :: rest =>
      (String.mk (d1 ++ '.' :: rest.takeWhile Char.isDigit),
       rest.dropWhile Char.isDigit)
  | _ => (String.mk d1, r1)

/-- Leftmost match of `/(\d+\.?\d*)/` (the bare-number pattern; no
backtracking is needed for this pattern, greedy matching is exact). -/
def pat2MatchGo : List Char → Option String
  | [] => none
  | c :: cs => if c.isDigit then some (matchNumAt (c :: cs)).1 else pat2MatchGo cs

def pat2Match (cs : List Char) : Option String := pat2MatchGo cs

/-- Characters of the unit class `[A-Za-z°%\/]`. -/
def unitChar (c : Char) : Bool :=
  c.isAlpha || c == '°' || c == '%' || c == '/'

/-- Attempt of `/(\d+\.?\d*)\s*([A-Za-z°%\/]+)/` at the head of the list.
For this pattern greedy matching agrees with the backtracking JavaScript
engine: shrinking any of the quantifiers can only place a digit, a dot or a
space where a unit character is required. -/
def pat1At (cs : List Char) : Option (String × String) :=
  match cs with
  | c :: _ =>
      if c.isDigit then
        let m := matchNumAt cs
        let r2 := m.2.dropWhile Char.isWhitespace
        let u := r2.takeWhile unitChar
        if u.isEmpty then none else some (m.1, String.mk u)
      else none
  | [] => none

/-- Leftmost match of `/(\d+\.?\d*)\s*([A-Za-z°%\/]+)/`. -/
def pat1MatchGo : List Char → Option (String × String)
  | [] => none
  | c :: cs =>
      match pat1At (c :: cs) with
      | some r => some r
      | none => pat1MatchGo cs

def pat1Match (cs : List Char) : Option (String × String) := pat1MatchGo cs

/-- Greedy consumption of `(?:,\d{3})*` (fuelled by the list length). -/
def commaGroups : Nat → List Char → List Char × List Char
  | 0, cs => ([], cs)
  | fuel + 1, ',' :: a :: b :: c :: rest =>
      if a.isDigit && b.isDigit && c.isDigit then
        let g := commaGroups fuel rest
        (',' :: a :: b :: c :: g.1, g.2)
      else ([], ',' :: a :: b :: c :: rest)
  | _ + 1, cs => ([], cs)

/-- Attempt of `/(\d{1,3}(?:,\d{3})*\.?\d*)/` at the head of the list.
(This pattern is tried by the source only after the bare-number pattern has
failed, i.e. only on digit-free text, where it also fails; it is embedded
for completeness.) -/
def pat3At (cs : List Char) : Option String :=
  match cs with
  | c :: _ =>
      if c.isDigit then
        let d1 := (cs.takeWhile Char.isDigit).take 3
        let r1 := cs.drop d1.length
        let g := commaGroups r1.length r1
        let tail :=
          match g.2 with
          | '.' :: rest => '.' :: rest.takeWhile Char.isDigit
          | r2 => r2.takeWhile Char.isDigit
        some (String.mk (d1 ++ g.1 ++ tail))
      else none
  | [] => none

/-- Leftmost match of `/(\d{1,3}(?:,\d{3})*\.?\d*)/`. -/
def pat3MatchGo : List Char → Option String
  | [] => none
  | c :: cs =>
      match pat3At (c :: cs) with
      | some r => some r
      | none => pat3MatchGo cs

def pat3Match (cs : List Char) : Option String := pat3MatchGo cs

/-- All matches of `/\d+\.?\d*/g` in order (the global number scan of the
fallback parser), fuelled by the list length: every match consumes at least
one character. -/
def allNumMatchesGo : Nat → List Char → List String
  | 0, _ => []
  | _ + 1, [] => []
  | fuel + 1, c :: cs =>
      if c.isDigit then
        let m := matchNumAt (c :: cs)
        m.1 :: allNumMatchesGo fuel m.2
      else allNumMatchesGo fuel cs

def allNumMatches (cs : List Char) : List String := allNumMatchesGo cs.length cs

/-- Attempt of `/(\d{1,2}[\.:]\d{2})/` at the head of the list, one-digit
hour variant. -/
def timeAt1 : List Char → Option String
  | a :: s :: x :: y :: _ =>
      if a.isDigit && (s == '.' || s == ':') && x.isDigit && y.isDigit then
        some (String.mk [a, s, x, y])
      else none
  | _ => none

/-- Attempt of `/(\d{1,2}[\.:]\d{2})/` at the head of the list: the greedy
two-digit hour is tried first, then the engine backtracks to one digit. -/
def timeAt (cs : List Char) : Option String :=
  match cs with
  | a :: b :: s :: x :: y :: _ =>
      if a.isDigit && b.isDigit && (s == '.' || s == ':') && x.isDigit && y.isDigit then
        some (String.mk [a, b, s, x, y])
      else timeAt1 cs
  | _ => timeAt1 cs

/-- Leftmost (search) match of `/(\d{1,2}[\.:]\d{2})/`. -/
def firstTimeMatchGo : List Char → Option String
  | [] => none
  | c :: cs =>
      match timeAt (c :: cs) with
      | some m => some m
      | none => firstTimeMatchGo cs

def firstTimeMatch (s : String) : Option String := firstTimeMatchGo s.data

/-- Numeric value of a digit run. -/
def digitsVal (ds : List Char) : Nat :=
  ds.foldl (fun n c => n * 10 + (c.toNat - 48)) 0

/-- JavaScript `parseFloat` on a string matched by `\d+\.?\d*`
(exact-rational idealization of the IEEE double). -/
def parseFloatQ (s : String) : ℚ :=
  let ip := s.data.takeWhile Char.isDigit
  let r := s.data.dropWhile Char.isDigit
  let fp :=
    match r with
    | '.' :: rest => rest.takeWhile Char.isDigit
    | _ => []
  qadd (Rat.divInt (digitsVal ip) 1)
    (Rat.divInt (digitsVal fp) (Int.ofNat (10 ^ fp.length)))

/-- JavaScript `parseFloat(s).toString()` for a string matched by
`\d+\.?\d*`: leading zeros of the integer part and trailing zeros of the
fraction are dropped (exact-decimal idealization of the double round-trip,
which agrees with JavaScript on the magnitudes the pipeline sees). -/
def numToString (s : String) : String :=
  let ip := s.data.takeWhile Char.isDigit
  let r := s.data.dropWhile Char.isDigit
  let fp :=
    match r with
    | '.' :: rest => rest.takeWhile Char.isDigit
    | _ => []
  let ip1 := ip.dropWhile (· == '0')
  let ipn := if ip1.isEmpty then ['0'] else ip1
  let fp1 := (fp.reverse.dropWhile (· == '0')).reverse
  if fp1.isEmpty then String.mk ipn else String.mk (ipn ++ '.' :: fp1)

/-! ### Data model (from the source) -/

/-- Bounding box of one OCR word (`bbox: {x0, y0, x1, y1}`). -/
structure BBox where
  x0 : ℚ
  y0 : ℚ
  x1 : ℚ
  y1 : ℚ
deriving DecidableEq, Repr

/-- One OCR-recognized word (`{ text, confidence, bbox }`).  Tesseract
reports `confidence` on a 0–100 scale. -/
structure Word where
  text : String
  confidence : ℚ
  bbox : BBox
deriving DecidableEq, Repr

/-- The OCR result consumed by the parsers (`{ text?, words? }`); an absent
field is modelled by the empty string / empty list. -/
structure OCRData where
  text : String
  words : List Word
deriving DecidableEq, Repr

/-- Cell provenance (`cellPosition: {row, col}`). -/
structure CellPosition where
  row : Nat
  col : Nat
deriving DecidableEq, Repr

/-- One extracted parameter cell (the value type of the `parameters` map of
both `CompressorDataPoint` and `WellDataPoint`). -/
structure ParameterReading where
  value : String
  unit : String
  confidence : ℚ
  cellPosition : CellPosition
  isEditing : Bool
deriving DecidableEq, Repr

/-- One time-anchored reading of the gas-compressor pipeline
(`CompressorDataPoint`); the JS `parameters` object is an insertion-ordered
association list. -/
structure CompressorDataPoint where
  id : String
  timeReading : String
  date : String
  parameters : List (String × ParameterReading)
  isVerified : Bool
deriving DecidableEq, Repr

/-- One well-anchored reading of the generic pipeline (`WellDataPoint`). -/
structure WellDataPoint where
  id : String
  wellName : String
  date : String
  parameters : List (String × ParameterReading)
  isVerified : Bool
deriving DecidableEq, Repr

/-- One cell of the generic table pipeline (`TableCell`). -/
structure TableCell where
  text : String
  confidence : ℚ
  x : ℚ
  y : ℚ
  width : ℚ
  height : ℚ
  row : Nat
  col : Nat
deriving DecidableEq, Repr

/-- Result of the specialized (gas-compressor) parser; its `rows` field is
always returned empty by the source. -/
structure ExtractedTableC where
  headers : List String
  rows : List (List String)
  wellData : List CompressorDataPoint
deriving DecidableEq, Repr

/-- Result of the generic table parser of EnhancedOilFieldOCR.tsx. -/
structure ExtractedTableW where
  headers : List String
  rows : List (List TableCell)
  wellData : List WellDataPoint
deriving DecidableEq, Repr

/-- A calibrated gas-compressor column (`CompressorColumn`). -/
structure CompressorColumn where
  id : String
  mainHeader : String
  subHeader : String
  unit : String
  expectedXPosition : ℚ
  tolerance : ℚ
deriving DecidableEq, Repr

/-- The calibrated column layout `GAS_COMPRESSOR_COLUMNS` of the source. -/
def GAS_COMPRESSOR_COLUMNS : List CompressorColumn := [
  ⟨"time", "Time", "hrs", "hrs", 50, 25⟩,
  ⟨"frame_lube_press", "Frame Lube Oil", "Press", "Kg/cm²", 110, 20⟩,
  ⟨"frame_lube_temp", "Frame Lube Oil", "Temp", "°C", 150, 20⟩,
  ⟨"oil_filter_dp", "Frame Lube Oil", "Oil Filter ΔP", "", 190, 20⟩,
  ⟨"frame_lube_level", "Frame Lube Oil", "Level", "%", 230, 20⟩,
  ⟨"cw_out_temp", "Frame Bearing Temp", "CW Out Temp", "°C", 270, 20⟩,
  ⟨"brg_1", "Frame Bearing Temp", "BRG #1", "°C", 310, 20⟩,
  ⟨"brg_2", "Frame Bearing Temp", "BRG #2", "°C", 350, 20⟩,
  ⟨"brg_3", "Frame Bearing Temp", "BRG #3", "°C", 390, 20⟩,
  ⟨"brg_4", "Frame Bearing Temp", "BRG #4", "°C", 430, 20⟩,
  ⟨"stage1_suction_press", "1st Stage Cylinder", "Suction Press", "Kg/cm²", 470, 20⟩,
  ⟨"stage1_suction_temp", "1st Stage Cylinder", "Suction Temp", "°C", 510, 20⟩,
  ⟨"stage1_discharge_press", "1st Stage Cylinder", "Discharge Press", "Kg/cm²", 550, 20⟩,
  ⟨"stage1_discharge_temp", "1st Stage Cylinder", "Discharge Temp", "°C", 590, 20⟩,
  ⟨"stage2_suction_press", "2nd Stage Cylinder", "Suction Press", "Kg/cm²", 630, 20⟩,
  ⟨"stage2_suction_temp", "2nd Stage Cylinder", "Suction Temp", "°C", 670, 20⟩,
  ⟨"stage2_discharge_press", "2nd Stage Cylinder", "Discharge Press", "Kg/cm²", 710, 20⟩,
  ⟨"stage2_discharge_temp", "2nd Stage Cylinder", "Discharge Temp", "°C", 750, 20⟩,
  ⟨"aftercooler_lubricator", "After Cooler Separator", "Lubricator", "", 790, 20⟩,
  ⟨"aftercooler_pressure", "After Cooler Separator", "Pressure", "Kg/cm²", 830, 20⟩,
  ⟨"aftercooler_temp", "After Cooler Separator", "Temp", "°C", 870, 20⟩,
  ⟨"aftercooler_operating", "After Cooler Separator", "Operating", "", 910, 20⟩,
  ⟨"cooling_level", "Cooling Water", "Level", "%", 950, 20⟩,
  ⟨"cooling_press", "Cooling Water", "Press", "Kg/cm²", 990, 20⟩,
  ⟨"cooling_temp", "Cooling Water", "Temp", "°C", 1030, 20⟩,
  ⟨"motor_amp", "Cooling Water", "Motor Amp", "A", 1070, 20⟩,
  ⟨"cyl_cw_1", "Cylinder CW Out Temp", "Cyl #1", "°C", 1110, 20⟩,
  ⟨"cyl_cw_2", "Cylinder CW Out Temp", "Cyl #2", "°C", 1150, 20⟩,
  ⟨"cyl_cw_3", "Cylinder CW Out Temp", "Cyl #3", "°C", 1190, 20⟩,
  ⟨"cyl_cw_4", "Cylinder CW Out Temp", "Cyl #4", "°C", 1230, 20⟩,
  ⟨"control_valve_pos", "Control Valve Position", "%", "%", 1270, 20⟩,
  ⟨"engine_speed", "Engine Speed", "RPM", "RPM", 1310, 20⟩,
  ⟨"engine_load", "Engine Load", "%", "%", 1350, 20⟩,
  ⟨"instrument_air", "Instrument Air Pressure", "Press", "Kg/cm²", 1390, 20⟩,
  ⟨"gas_flow", "Gas Flow", "Sm³/Hr", "Sm³/Hr", 1450, 30⟩]

/-! ### Calibrated gas-compressor extraction (specialized component)

Embedding of `specializedGasCompressorExtraction`.  The impure
`new Date().toISOString().split('T')[0]` is modelled by the explicit
parameter `today`.  The JS reference-identity test `word === timeWord` is
modelled by tagging each word with its array index (`List.enum`). -/

/-- Horizontal center `(bbox.x0 + bbox.x1) / 2` of a word. -/
def wordCenterX (w : Word) : ℚ := qdiv (qadd w.bbox.x0 w.bbox.x1) 2

/-- Vertical center `(bbox.y0 + bbox.y1) / 2` of a word. -/
def wordCenterY (w : Word) : ℚ := qdiv (qadd w.bbox.y0 w.bbox.y1) 2

/-- The hierarchical parameter name `` `${column.mainHeader} - ${column.subHeader}` ``. -/
def colName (c : CompressorColumn) : String := c.mainHeader ++ " - " ++ c.subHeader

/-- `GAS_COMPRESSOR_COLUMNS.find(col => Math.abs(wordX - col.expectedXPosition) <= col.tolerance)`:
the first column, in definition order, covering the word center. -/
def findColumn (wordX : ℚ) : Option CompressorColumn :=
  GAS_COMPRESSOR_COLUMNS.find?
    (fun col => decide (qabs (qsub wordX col.expectedXPosition) ≤ col.tolerance))

/-- `word.text.trim().replace(/[^\d.,]/g, '')`. -/
def cleanNumericText (s : String) : String :=
  String.mk ((jsTrim s).data.filter (fun c => c.isDigit || c == '.' || c == ','))

/-- Assignment into a JS object used as a map: an existing key keeps its
insertion position and gets the new value; a new key is appended. -/
def insertJS (l : List (String × ParameterReading)) (k : String) (v : ParameterReading) :
    List (String × ParameterReading) :=
  match l with
  | [] => [(k, v)]
  | (k', v') :: rest => if k' = k then (k, v) :: rest else (k', v') :: insertJS rest k v

/-- Processing of one row word of `specializedGasCompressorExtraction`
(the body of the `rowWords.forEach`): the state is the `parameters` map
together with the `parametersFound` counter. -/
def processRowWord (rowIndex : Nat) (st : List (String × ParameterReading) × Nat)
    (w : Word) : List (String × ParameterReading) × Nat :=
  match findColumn (wordCenterX w) with
  | none => st
  | some column =>
      match pat2Match (cleanNumericText w.text).data with
      | some m =>
          -- numeric branch: parseFloat, reject NaN and negatives
          if 0 ≤ parseFloatQ m then
            (insertJS st.1 (colName column)
              { value := numToString m
                unit := column.unit
                confidence := qmul (jsOr w.confidence (Rat.divInt 17 20)) (Rat.divInt 9 10)
                -- (word.confidence || 0.85) * 0.9
                cellPosition := ⟨rowIndex, st.2⟩
                isEditing := false },
             st.2 + 1)
          else st
      | none =>
          -- non-numeric status indicators
          if 0 < (jsTrim w.text).length then
            (insertJS st.1 (colName column)
              { value := jsTrim w.text
                unit := column.unit
                confidence := qmul (jsOr w.confidence (Rat.divInt 7 10)) (Rat.divInt 4 5)
                -- (word.confidence || 0.7) * 0.8
                cellPosition := ⟨rowIndex, st.2⟩
                isEditing := false },
             st.2 + 1)
          else st

/-- The words sharing a row with the anchor: every word other than the
anchor itself whose vertical center is within `rowTolerance = 25` of the
anchor's vertical center. -/
def rowWordsFor (words : List (Nat × Word)) (anchorIdx : Nat) (timeY : ℚ) : List Word :=
  (words.filter (fun iw =>
      iw.1 != anchorIdx && decide (qabs (qsub (wordCenterY iw.2) timeY) ≤ 25))).map (·.2)

/-- The `parameters` map and `parametersFound` counter built for one anchor. -/
def compressorRowData (words : List (Nat × Word)) (anchor : Nat × Word)
    (rowIndex : Nat) : List (String × ParameterReading) × Nat :=
  (rowWordsFor words anchor.1 (wordCenterY anchor.2)).foldl (processRowWord rowIndex) ([], 0)

/-- The anchor words: the words fully matching the time pattern, or, if
there are none, the words matching the bare 1–2 digit pattern (the source
returns `[]` early when both sets are empty, which coincides with mapping
over the empty anchor list). -/
def compressorAnchors (words : List (Nat × Word)) : List (Nat × Word) :=
  let timeWords := words.filter (fun iw => isTimePattern (jsTrim iw.2.text))
  if timeWords.length > 0 then timeWords
  else words.filter (fun iw => isShortNum (jsTrim iw.2.text))

/-- `specializedGasCompressorExtraction`: one reading per anchor whose row
yields at least 5 counted parameters. -/
def specializedGasCompressorExtraction (ocrWords : List Word) (today : String) :
    List CompressorDataPoint :=
  let words := ocrWords.enum
  if words.length = 0 then []
  else
    ((compressorAnchors words).enum).filterMap (fun ria =>
      let pc := compressorRowData words ria.2 ria.1
      if 5 ≤ pc.2 then
        let timeValue := jsTrim ria.2.2.text
        some
          { id := "time-row-" ++ toString ria.1
            timeReading :=
              if strContainsChar timeValue ':' then timeValue else timeValue ++ ":00"
            date := today
            parameters := pc.1
            isVerified := false }
      else none)

/-! ### Fallback parser and specialized table parser (specialized component) -/

/-- The hierarchical header list built by the specialized parser. -/
def gasCompressorHeaders : List String :=
  "Time (hrs)" ::
    (GAS_COMPRESSOR_COLUMNS.drop 1).map (fun col => colName col ++ " (" ++ col.unit ++ ")")

/-- Processing of one numeric substring by the fallback parser (the body of
the `dataNumbers.forEach`): positional assignment to
`GAS_COMPRESSOR_COLUMNS[i + 1]`, fixed confidence 0.6. -/
def fallbackInsertStep (idx : Nat) (ps : List (String × ParameterReading))
    (inum : Nat × String) : List (String × ParameterReading) :=
  if 0 ≤ parseFloatQ inum.2 then
    let column := GAS_COMPRESSOR_COLUMNS.get? (inum.1 + 1)
    let paramName :=
      match column with
      | some c => colName c
      | none => "Parameter " ++ toString (inum.1 + 1)
    insertJS ps paramName
      { value := numToString inum.2
        unit := (column.map (·.unit)).getD ""
        confidence := Rat.divInt 3 5  -- 0.6, lower confidence for fallback
        cellPosition := ⟨idx, inum.1⟩
        isEditing := false }
  else ps

/-- Processing of one line by `enhancedFallbackParsing` (the body of the
`lines.forEach`): `none` when the line is rejected. -/
def fallbackLineReading (reportDate : String) (idx : Nat) (line : String) :
    Option CompressorDataPoint :=
  let trimmedLine := jsTrim line
  if trimmedLine.length < 5 then none
  else
    let timeMatch := firstTimeMatch trimmedLine
    let numbers := allNumMatches trimmedLine.data
    if (timeMatch.isSome && numbers.length ≥ 3) || numbers.length ≥ 8 then
      let timeIdentifier :=
        match timeMatch with
        | some m => m
        | none => "Row-" ++ toString (idx + 1)
      -- "Skip time value when extracting parameters": only the FIRST
      -- numeric substring is dropped
      let dataNumbers := if timeMatch.isSome then numbers.drop 1 else numbers
      let parameters := (dataNumbers.enum).foldl (fallbackInsertStep idx) []
      if 3 ≤ parameters.length then
        some
          { id := "fallback-" ++ toString idx
            timeReading := timeIdentifier
            date := reportDate
            parameters := parameters
            isVerified := false }
      else none
    else none

/-- `enhancedFallbackParsing`: pure text-line parsing of `ocrData.text`. -/
def enhancedFallbackParsing (ocr : OCRData) (reportDate : String) : ExtractedTableC :=
  let lines := (splitLines ocr.text).filter (fun l => jsTrim l != "")
  { headers := ["Time", "Gas Compressor Parameters"]
    rows := []
    wellData := (lines.enum).filterMap (fun il => fallbackLineReading reportDate il.1 il.2) }

/-- The specialized `parseTableData`: the calibrated extractor runs when
words are present, and the fallback parser is used whenever it produced no
readings.  (The source wraps the specialized call in try/catch; the
embedded code is total, so the catch branch is unreachable.) -/
def parseTableDataC (ocr : OCRData) (today reportDate : String) : ExtractedTableC :=
  if ocr.words.length > 0 then
    let compressorResults := specializedGasCompressorExtraction ocr.words today
    if compressorResults.length > 0 then
      { headers := gasCompressorHeaders, rows := [], wellData := compressorResults }
    else enhancedFallbackParsing ocr reportDate
  else enhancedFallbackParsing ocr reportDate

/-- The specialized component's `processOCROnCanvas`, from the point where
the OCR engine has returned `data`: the result is parsed unconditionally —
this variant has no empty-text check and never throws. -/
def processOCROnCanvasC (ocr : OCRData) (today reportDate : String) :
    Except String ExtractedTableC :=
  Except.ok (parseTableDataC ocr today reportDate)

/-! ### Generic header-inferred pipeline (EnhancedOilFieldOCR.tsx) -/

/-- An entry of `PARAMETER_MAPPING`. -/
structure ParamMapping where
  key : String
  fullName : String
  units : List String
deriving DecidableEq, Repr

/-- The parameter-name dictionary `PARAMETER_MAPPING`, in insertion order. -/
def PARAMETER_MAPPING : List ParamMapping := [
  ⟨"oil", "Oil Production", ["BBL", "bbl", "STB", "stb"]⟩,
  ⟨"gas", "Gas Production", ["MCF", "mcf", "MSCF", "mscf", "SCF"]⟩,
  ⟨"water", "Water Production", ["BBL", "bbl", "STB", "stb"]⟩,
  ⟨"pressure", "Pressure", ["PSI", "psi", "PSIG", "psig"]⟩,
  ⟨"temp", "Temperature", ["°F", "F", "deg"]⟩,
  ⟨"cut", "Water Cut", ["%", "percent"]⟩,
  ⟨"rate", "Flow Rate", ["BPD", "bpd", "BOPD"]⟩,
  ⟨"choke", "Choke Size", ["/64", "64ths"]⟩,
  ⟨"gor", "Gas Oil Ratio", ["SCF/BBL", "scf/bbl"]⟩]

/-- The value/unit pair returned by `extractValueAndUnit`. -/
structure ValueUnit where
  value : String
  unit : String
deriving DecidableEq, Repr

/-- `match[1].replace(/,/g, '')`. -/
def stripCommas (s : String) : String := String.mk (s.data.filter (fun c => c != ','))

/-- `extractValueAndUnit`: ordered pattern attempts, first match wins;
when nothing matches, the whole trimmed text is the value. -/
def extractValueAndUnit (text : String) : ValueUnit :=
  if text = "" then ⟨"", ""⟩
  else
    match pat1Match text.data with
    | some vu => ⟨stripCommas vu.1, vu.2⟩
    | none =>
        match pat2Match text.data with
        | some v => ⟨stripCommas v, ""⟩
        | none =>
            match pat3Match text.data with
            | some v => ⟨stripCommas v, ""⟩
            | none => ⟨jsTrim text, ""⟩

/-- `normalizeParameterName`: lower-case, strip everything but `[a-z0-9\s]`,
then first dictionary key contained in the cleaned text. -/
def normalizeParameterName (header : String) : String :=
  let cleaned := String.mk ((header.data.map Char.toLower).filter
    (fun c => (c.isLower && c.isAlpha) || c.isDigit || c.isWhitespace))
  match PARAMETER_MAPPING.find? (fun pm => strIncludes cleaned pm.key) with
  | some pm => pm.fullName
  | none => jsTrim header

/-- `detectUnit`: default unit of the first dictionary key contained in the
lower-cased parameter name. -/
def detectUnit (parameterName : String) : String :=
  let param := toLowerStr parameterName
  match PARAMETER_MAPPING.find? (fun pm => strIncludes param pm.key) with
  | some pm => pm.units.headD ""
  | none => ""

/-- `cleanWellName`: strip everything but `[a-zA-Z0-9\-]`, with fallback
name for an empty result. -/
def cleanWellName (name : String) : String :=
  jsOrS (jsTrim (String.mk (name.data.filter
    (fun c => c.isAlpha || c.isDigit || c == '-')))) "Unknown Well"

/-- The `rowTolerance` of the generic Row Clusterer (20 px). -/
def rowToleranceW : ℚ := 20

/-- Sorting of a row by `x0` ascending (JS `Array.prototype.sort` is
stable; insertion sort on `≤` realizes the same stable order). -/
def sortByX0 (row : List Word) : List Word :=
  row.insertionSort (fun a b => a.bbox.x0 ≤ b.bbox.x0)

/-- The walk of the generic Row Clusterer: current-row buffer and the
running `lastY` cursor (initialized to the sentinel -1). -/
def clusterGo : List Word → List Word → ℚ → List (List Word)
  | [], currentRow, _ =>
      if currentRow.length > 0 then [sortByX0 currentRow] else []
  | w :: rest, currentRow, lastY =>
      if lastY = -1 ∨ qabs (qsub w.bbox.y0 lastY) < rowToleranceW then
        clusterGo rest (currentRow ++ [w]) w.bbox.y0
      else
        (if currentRow.length > 0 then [sortByX0 currentRow] else []) ++
          clusterGo rest [w] w.bbox.y0

/-- The Row Clusterer of the generic `parseTableData`: sort by `bbox.y0`
ascending (stable), then walk with the running `lastY` cursor. -/
def clusterRows (words : List Word) : List (List Word) :=
  clusterGo (words.insertionSort (fun a b => a.bbox.y0 ≤ b.bbox.y0)) [] (-1)

/-- `parseWellDataFromTable`: one `WellDataPoint` per data row having a
plausible well name and at least one populated parameter. -/
def parseWellDataFromTable (rows : List (List TableCell)) (headers : List String)
    (reportDate : String) : List WellDataPoint :=
  (rows.enum).filterMap (fun ir =>
    let rowIndex := ir.1
    let row := ir.2
    if row.length = 0 then none
    else
      let wellName := jsOrS (((row.head?).map (·.text)).getD "")
        ("Well-" ++ toString (rowIndex + 1))
      if wellName.length < 2 then none
      else
        let parameters : List (String × ParameterReading) :=
          (row.enum).foldl (fun ps ic =>
          if ic.1 = 0 then ps  -- skip well name column
          else
            let headerName := jsOrS (headers.getD ic.1 "") ("Parameter " ++ toString ic.1)
            let parameterKey := normalizeParameterName headerName
            let vu := extractValueAndUnit ic.2.text
            if vu.value != "" then
              insertJS ps parameterKey
                { value := vu.value
                  unit := jsOrS vu.unit (detectUnit parameterKey)
                  confidence := ic.2.confidence
                  cellPosition := ⟨rowIndex, ic.1⟩
                  isEditing := false }
            else ps) []
        if parameters.length > 0 then
          some
            ({ id := "well-" ++ toString rowIndex
               wellName := cleanWellName wellName
               date := reportDate
               parameters := parameters
               isVerified := false } : WellDataPoint)
        else none)

/-- The generic `parseTableData` of EnhancedOilFieldOCR.tsx: cluster rows,
take row 0 as headers, convert the remaining rows to `TableCell`s
(normalizing OCR confidence by 100), and assemble well data. -/
def parseTableDataW (ocr : OCRData) (reportDate : String) : ExtractedTableW :=
  let rows := clusterRows ocr.words
  let headers :=
    match rows.head? with
    | some headerRow =>
        (headerRow.enum).map (fun iw => jsOrS iw.2.text ("Column " ++ toString (iw.1 + 1)))
    | none => []
  let dataRows := ((rows.drop 1).enum).map (fun ir =>
    (ir.2.enum).map (fun iw =>
      ({ text := iw.2.text
         confidence := jsOr (qdiv iw.2.confidence 100) 0  -- word.confidence / 100 || 0
         x := iw.2.bbox.x0
         y := iw.2.bbox.y0
         width := qsub iw.2.bbox.x1 iw.2.bbox.x0
         height := qsub iw.2.bbox.y1 iw.2.bbox.y0
         row := ir.1
         col := iw.1 } : TableCell)))
  let wellData := parseWellDataFromTable dataRows headers reportDate
  { headers := headers, rows := dataRows, wellData := wellData }

/-- The tsx `processOCROnCanvas`, from the point where the OCR engine has
returned: `!data || !data.text` throws "No text was extracted from the
document"; otherwise the table is parsed. -/
def processOCROnCanvasW (data : Option OCRData) (reportDate : String) :
    Except String ExtractedTableW :=
  match data with
  | none => Except.error "No text was extracted from the document"
  | some d =>
      if d.text = "" then Except.error "No text was extracted from the document"
      else Except.ok (parseTableDataW d reportDate)

/-! ### Auxiliary observers for stating spec properties -/

/-- Maximum `bbox.y0` over a row of words (0 for an empty row). -/
def rowMaxY0 : List Word → ℚ
  | [] => 0
  | w :: ws => ws.foldl (fun m x => if m ≤ x.bbox.y0 then x.bbox.y0 else m) w.bbox.y0

/-- Minimum `bbox.y0` over a row of words (0 for an empty row). -/
def rowMinY0 : List Word → ℚ
  | [] => 0
  | w :: ws => ws.foldl (fun m x => if x.bbox.y0 ≤ m then x.bbox.y0 else m) w.bbox.y0

/-! ### Concrete test fixtures

Concrete OCR inputs used to exercise the embedded pipeline in the theorems
below.  The bounding boxes are chosen so that word centers fall on the
calibrated column positions. -/

/-- A calibrated sheet row: the time anchor "14:30" followed by five numeric
words whose centers hit the first five data columns; all OCR confidences are
on the Tesseract 0–100 scale. -/
def wsHighConf : List Word :=
  [⟨"14:30", 96, ⟨40, 90, 60, 110⟩⟩,
   ⟨"5", 95, ⟨100, 90, 120, 110⟩⟩,
   ⟨"60", 95, ⟨140, 90, 160, 110⟩⟩,
   ⟨"1", 95, ⟨180, 90, 200, 110⟩⟩,
   ⟨"80", 95, ⟨220, 90, 240, 110⟩⟩,
   ⟨"45", 95, ⟨260, 90, 280, 110⟩⟩]

/-- A calibrated sheet row in which two words (centers 105 and 115) both
fall within tolerance of the same column (Frame Lube Oil - Press at
110 ± 20), plus three words on distinct columns. -/
def wsDupCol : List Word :=
  [⟨"14:30", 90, ⟨40, 90, 60, 110⟩⟩,
   ⟨"11", 90, ⟨100, 90, 110, 110⟩⟩,
   ⟨"22", 90, ⟨110, 90, 120, 110⟩⟩,
   ⟨"33", 90, ⟨140, 90, 160, 110⟩⟩,
   ⟨"44", 90, ⟨180, 90, 200, 110⟩⟩,
   ⟨"55", 90, ⟨220, 90, 240, 110⟩⟩]

/-- An OCR result with no words but non-empty text containing one
qualifying fallback line. -/
def blobOCR : OCRData := ⟨"header junk\n14:30 1200 3800 2100 187 12.5\n", []⟩

/-- Three words whose `y0` values 0, 15, 30 chain pairwise within the
20 px row tolerance but spread to 30 px overall. -/
def wDrift0 : Word := ⟨"a", 50, ⟨0, 0, 10, 10⟩⟩

def wDrift15 : Word := ⟨"b", 50, ⟨20, 15, 30, 25⟩⟩

def wDrift30 : Word := ⟨"c", 50, ⟨40, 30, 50, 40⟩⟩

def wsDrift : List Word := [wDrift0, wDrift15, wDrift30]

/-- A generic-pipeline data row with a well name and exactly two populated
parameter cells (confidences already normalized to 0–1 by `parseTableData`). -/
def rowsTwoParams : List (List TableCell) :=
  [[⟨"W-1", Rat.divInt 9 10, 0, 0, 10, 10, 0, 0⟩,
    ⟨"100", Rat.divInt 9 10, 0, 0, 10, 10, 0, 1⟩,
    ⟨"200", Rat.divInt 9 10, 0, 0, 10, 10, 0, 2⟩]]

/-- Headers for `rowsTwoParams`. -/
def headersTwoParams : List String := ["Well", "Oil", "Gas"]

/-- A word whose center (5000) is inside no calibrated column. -/
def wFarRight : Word := ⟨"7", 50, ⟨4990, 90, 5010, 110⟩⟩

/-- A word whose center (110) is on the Frame Lube Oil - Press column. -/
def wOnPress : Word := ⟨"5", 50, ⟨100, 90, 120, 110⟩⟩

/-- The reading the calibrated extractor produces from `wsHighConf`:
every stored confidence is 95 · 0.9 = 85.5. -/
def ptHighConf : CompressorDataPoint :=
  { id := "time-row-0", timeReading := "14:30", date := "2026-01-01",
    parameters := [
      ("Frame Lube Oil - Press", ⟨"5", "Kg/cm²", Rat.divInt 171 2, ⟨0, 0⟩, false⟩),
      ("Frame Lube Oil - Temp", ⟨"60", "°C", Rat.divInt 171 2, ⟨0, 1⟩, false⟩),
      ("Frame Lube Oil - Oil Filter ΔP", ⟨"1", "", Rat.divInt 171 2, ⟨0, 2⟩, false⟩),
      ("Frame Lube Oil - Level", ⟨"80", "%", Rat.divInt 171 2, ⟨0, 3⟩, false⟩),
      ("Frame Bearing Temp - CW Out Temp", ⟨"45", "°C", Rat.divInt 171 2, ⟨0, 4⟩, false⟩)],
    isVerified := false }

/-- The reading the calibrated extractor produces from `wsDupCol`: the two
words on the Press column were both counted, but the later one overwrote the
earlier one, leaving 4 distinct parameters. -/
def ptDupCol : CompressorDataPoint :=
  { id := "time-row-0", timeReading := "14:30", date := "2026-01-01",
    parameters := [
      ("Frame Lube Oil - Press", ⟨"22", "Kg/cm²", 81, ⟨0, 1⟩, false⟩),
      ("Frame Lube Oil - Temp", ⟨"33", "°C", 81, ⟨0, 2⟩, false⟩),
      ("Frame Lube Oil - Oil Filter ΔP", ⟨"44", "", 81, ⟨0, 3⟩, false⟩),
      ("Frame Lube Oil - Level", ⟨"55", "%", 81, ⟨0, 4⟩, false⟩)],
    isVerified := false }

/-- The reading the generic assembler produces from `rowsTwoParams`. -/
def wTwoParams : WellDataPoint :=
  { id := "well-0", wellName := "W-1", date := "2026-01-01",
    parameters := [
      ("Oil Production", ⟨"100", "BBL", Rat.divInt 9 10, ⟨0, 1⟩, false⟩),
      ("Gas Production", ⟨"200", "MCF", Rat.divInt 9 10, ⟨0, 2⟩, false⟩)],
    isVerified := false }

/-- The reading the fallback parser produces from `blobOCR`: the minutes
component "30" of the identifier "14:30" lands on the first data column. -/
def fbReading : CompressorDataPoint :=
  { id := "fallback-1", timeReading := "14:30", date := "2026-01-01",
    parameters := [
      ("Frame Lube Oil - Press", ⟨"30", "Kg/cm²", Rat.divInt 3 5, ⟨1, 0⟩, false⟩),
      ("Frame Lube Oil - Temp", ⟨"1200", "°C", Rat.divInt 3 5, ⟨1, 1⟩, false⟩),
      ("Frame Lube Oil - Oil Filter ΔP", ⟨"3800", "", Rat.divInt 3 5, ⟨1, 2⟩, false⟩),
      ("Frame Lube Oil - Level", ⟨"2100", "%", Rat.divInt 3 5, ⟨1, 3⟩, false⟩),
      ("Frame Bearing Temp - CW Out Temp", ⟨"187", "°C", Rat.divInt 3 5, ⟨1, 4⟩, false⟩),
      ("Frame Bearing Temp - BRG #1", ⟨"12.5", "°C", Rat.divInt 3 5, ⟨1, 5⟩, false⟩)],
    isVerified := false }

/-! ## Theorems

First the bridge lemmas relating the kernel-computable wrappers to the
ordinary `ℚ` operations, then shared auxiliary lemmas, then one theorem per
specification claim. -/

theorem qadd_eq (a b : ℚ) : qadd a b = a + b := by
  have ha : ((a.den : ℚ)) ≠ 0 := by exact_mod_cast a.den_ne_zero
  have hb : ((b.den : ℚ)) ≠ 0 := by exact_mod_cast b.den_ne_zero
  rw [qadd, Rat.divInt_eq_div]
  conv_rhs => rw [← Rat.num_div_den a, ← Rat.num_div_den b]
  rw [div_add_div _ _ ha hb]
  push_cast
  ring_nf

theorem qsub_eq (a b : ℚ) : qsub a b = a - b := by
  have ha : ((a.den : ℚ)) ≠ 0 := by exact_mod_cast a.den_ne_zero
  have hb : ((b.den : ℚ)) ≠ 0 := by exact_mod_cast b.den_ne_zero
  rw [qsub, Rat.divInt_eq_div]
  conv_rhs => rw [← Rat.num_div_den a, ← Rat.num_div_den b]
  rw [div_sub_div _ _ ha hb]
  push_cast
  ring_nf

theorem qmul_eq (a b : ℚ) : qmul a b = a * b := by
  rw [qmul, Rat.divInt_eq_div]
  conv_rhs => rw [← Rat.num_div_den a, ← Rat.num_div_den b]
  rw [div_mul_div_comm]
  push_cast
  ring_nf

theorem qdiv_eq (a b : ℚ) : qdiv a b = a / b := by
  rcases eq_or_ne b 0 with hb | hb
  · subst hb
    simp [qdiv, Rat.divInt_eq_div]
  · have hbn : (b.num : ℚ) ≠ 0 := by
      exact_mod_cast Rat.num_ne_zero.mpr hb
    have ha : ((a.den : ℚ)) ≠ 0 := by exact_mod_cast a.den_ne_zero
    have hbd : ((b.den : ℚ)) ≠ 0 := by exact_mod_cast b.den_ne_zero
    rw [qdiv, Rat.divInt_eq_div]
    conv_rhs => rw [← Rat.num_div_den a, ← Rat.num_div_den b]
    push_cast
    field_simp

theorem qabs_eq (a : ℚ) : qabs a = |a| := by
  rw [qabs, Rat.abs_def, Int.abs_eq_natAbs]

/-- The decimal literal 0.6 as the kernel-computable rational used by the
fallback parser. -/
theorem q_point_six : (0.6 : ℚ) = Rat.divInt 3 5 := by
  rw [Rat.divInt_eq_div]
  norm_num

/-- Membership in a JS-object assignment: every entry of `insertJS l k v`
is an old entry or the newly written pair. -/
theorem insertJS_mem {l : List (String × ParameterReading)} {k : String}
    {v : ParameterReading} :
    ∀ kv ∈ insertJS l k v, kv ∈ l ∨ kv = (k, v) := by
  induction l with
  | nil => intro kv hkv; simp [insertJS] at hkv; simp [hkv]
  | cons hd tl ih =>
      intro kv hkv
      rw [insertJS] at hkv
      by_cases h : hd.1 = k
      · simp [h] at hkv
        rcases hkv with h1 | h1
        · right; simp [h1]
        · left; simp [h1]
      · simp [h] at hkv
        rcases hkv with h1 | h1
        · left; simp [h1]
        · rcases ih kv h1 with h2 | h2
          · left; simp [h2]
          · right; exact h2

/-- Every entry produced by folding the fallback insertion step carries the
fixed fallback confidence. -/
theorem fallbackFold_conf (idx : Nat) (l : List (Nat × String)) :
    ∀ ps : List (String × ParameterReading),
      (∀ kv ∈ ps, kv.2.confidence = Rat.divInt 3 5) →
      ∀ kv ∈ l.foldl (fallbackInsertStep idx) ps, kv.2.confidence = Rat.divInt 3 5 := by
  induction l with
  | nil => intro ps h; simpa using h
  | cons hd tl ih =>
      intro ps h kv hkv
      rw [List.foldl_cons] at hkv
      refine ih _ ?_ kv hkv
      intro kv' hkv'
      rw [fallbackInsertStep] at hkv'
      split at hkv'
      · rcases insertJS_mem kv' hkv' with h1 | h1
        · exact h kv' h1
        · simp [h1]
      · exact h kv' hkv'

/-- Every parameter of a reading accepted by the fallback line parser
carries the fixed fallback confidence. -/
theorem fallbackLine_conf {rd : String} {idx : Nat} {line : String}
    {r : CompressorDataPoint} (h : fallbackLineReading rd idx line = some r) :
    ∀ kv ∈ r.parameters, kv.2.confidence = Rat.divInt 3 5 := by
  simp only [fallbackLineReading] at h
  split at h
  · exact absurd h (by simp)
  · split at h
    · split at h <;> split at h
      all_goals
        first
          | (injection h with h
             subst h
             exact fallbackFold_conf _ _ [] (by simp))
          | simp at h
    · exact absurd h (by simp)

/-- Every reading emitted by the calibrated extractor comes from an anchor
whose row yielded at least 5 counted parameters, and carries exactly that
row's parameter map. -/
theorem specialized_mem {ws : List Word} {today : String} {r : CompressorDataPoint}
    (h : r ∈ specializedGasCompressorExtraction ws today) :
    ∃ ria ∈ (compressorAnchors ws.enum).enum,
      5 ≤ (compressorRowData ws.enum ria.2 ria.1).2 ∧
      r.parameters = (compressorRowData ws.enum ria.2 ria.1).1 := by
  simp only [specializedGasCompressorExtraction] at h
  split at h
  · simp at h
  · simp only [List.mem_filterMap] at h
    obtain ⟨ria, hmem, hf⟩ := h
    refine ⟨ria, hmem, ?_⟩
    split at hf
    · next hcount =>
        injection hf with hf
        subst hf
        exact ⟨hcount, rfl⟩
    · exact absurd hf (by simp)

/-- Every reading emitted by the generic table assembler has at least one
populated parameter. -/
theorem parseWellData_params_pos (rows : List (List TableCell)) (headers : List String)
    (rd : String) :
    ∀ w ∈ parseWellDataFromTable rows headers rd, 0 < w.parameters.length := by
  intro w hw
  simp only [parseWellDataFromTable, List.mem_filterMap] at hw
  obtain ⟨ir, _, hf⟩ := hw
  split at hf
  · exact absurd hf (by simp)
  · split at hf
    · exact absurd hf (by simp)
    · split at hf
      · next hlen =>
          injection hf with hf
          subst hf
          simpa using hlen
      · exact absurd hf (by simp)

/-- Invariant of the clustering walk: every emitted row is a permutation
(by the final x-sort) of a buffer in which consecutive `y0` values differ by
less than the row tolerance. -/
theorem clusterGo_chain :
    ∀ (l buf : List Word) (lastY : ℚ),
      (∀ w ∈ l, 0 ≤ w.bbox.y0) →
      List.Chain' (fun a b => |b.bbox.y0 - a.bbox.y0| < rowToleranceW) buf →
      (∀ w, buf.getLast? = some w → lastY = w.bbox.y0 ∧ 0 ≤ lastY) →
      ∀ row ∈ clusterGo l buf lastY,
        ∃ l', row.Perm l' ∧
          List.Chain' (fun a b => |b.bbox.y0 - a.bbox.y0| < rowToleranceW) l' := by
  intro l
  induction l with
  | nil =>
      intro buf lastY _ hbuf _ row hrow
      rw [clusterGo] at hrow
      split at hrow
      · simp only [List.mem_singleton] at hrow
        subst hrow
        exact ⟨buf, List.perm_insertionSort _ buf, hbuf⟩
      · simp at hrow
  | cons w rest ih =>
      intro buf lastY hl hbuf hlast row hrow
      rw [clusterGo] at hrow
      split at hrow
      · next hcond =>
          refine ih (buf ++ [w]) w.bbox.y0
            (fun x hx => hl x (List.mem_cons_of_mem _ hx)) ?_ ?_ row hrow
          · rw [List.chain'_append]
            refine ⟨hbuf, List.chain'_singleton _, ?_⟩
            intro x hx y hy
            simp only [List.head?_cons, Option.mem_def, Option.some.injEq] at hy
            subst hy
            obtain ⟨hxy, hx0⟩ := hlast x hx
            rcases hcond with hc | hc
            · exfalso
              rw [hc] at hx0
              norm_num at hx0
            · rw [qabs_eq, qsub_eq] at hc
              rw [← hxy]
              exact hc
          · intro x hx
            rw [List.getLast?_concat] at hx
            injection hx with hx
            subst hx
            exact ⟨rfl, hl w (List.mem_cons_self _ _)⟩
      · rw [List.mem_append] at hrow
        rcases hrow with hrow | hrow
        · split at hrow
          · simp only [List.mem_singleton] at hrow
            subst hrow
            exact ⟨buf, List.perm_insertionSort _ buf, hbuf⟩
          · simp at hrow
        · refine ih [w] w.bbox.y0
            (fun x hx => hl x (List.mem_cons_of_mem _ hx))
            (List.chain'_singleton _) ?_ row hrow
          intro x hx
          simp only [List.getLast?_singleton, Option.some.injEq] at hx
          subst hx
          exact ⟨rfl, hl w (List.mem_cons_self _ _)⟩

/-! ## Claim theorems -/

/-- C1: refuted on the code — the claim asserts every emitted
ParameterReading has confidence in [0, 1], the 0–100 OCR word confidence
having been divided by 100 first; but the calibrated extractor stores
`(word.confidence || 0.85) * 0.9` with no division by 100, so a row of
words with OCR confidence 95 yields a reading holding parameters with
confidence 85.5 > 1. -/
theorem calibrated_confidence_exceeds_one :
    ∃ r ∈ specializedGasCompressorExtraction wsHighConf "2026-01-01",
      ∃ kv ∈ r.parameters, kv.2.confidence = 85.5 ∧ 1 < kv.2.confidence := by
  have h855 : (85.5 : ℚ) = Rat.divInt 171 2 := by
    rw [Rat.divInt_eq_div]
    norm_num
  rw [h855]
  decide

/-- C2: refuted on the code — the claim asserts
`extractValueAndUnit "1,234.5 PSI" = {value := "1234.5", unit := "PSI"}`,
but the first pattern `(\d+\.?\d*)\s*([A-Za-z°%\/]+)` wins and matches after
the comma, so the code returns value "234.5" (the comma-aware third pattern
is unreachable). -/
theorem extractValueAndUnit_comma_split :
    extractValueAndUnit "1,234.5 PSI" = ⟨"234.5", "PSI"⟩ := by decide

/-- C3, counterexample: three tokens with y0 = 0, 15, 30 chain into one row
(each consecutive gap 15 < 20) whose y0 spread is 30 ≥ rowTolerance,
refuting `max(y0) - min(y0) < rowTolerance` for emitted rows. -/
theorem cluster_row_spread_counterexample :
    ∃ row ∈ clusterRows wsDrift,
      ¬(rowMaxY0 row - rowMinY0 row < rowToleranceW) := by
  refine ⟨[wDrift0, wDrift15, wDrift30], by decide, ?_⟩
  have h1 : rowMaxY0 [wDrift0, wDrift15, wDrift30] = 30 := by decide
  have h2 : rowMinY0 [wDrift0, wDrift15, wDrift30] = 0 := by decide
  rw [h1, h2]
  norm_num [rowToleranceW]

/-- C3, amended: for tokens with non-negative y0 (the spec's Token
invariant), every row emitted by the clusterer is a reordering (by the final
x-sort) of a token sequence whose CONSECUTIVE y0 values differ by less than
rowTolerance; the overall spread is only bounded by (length - 1) ·
rowTolerance, not by rowTolerance itself. -/
theorem cluster_row_chain_bound (words : List Word)
    (h : ∀ w ∈ words, 0 ≤ w.bbox.y0) :
    ∀ row ∈ clusterRows words,
      ∃ l, row.Perm l ∧
        List.Chain' (fun a b => |b.bbox.y0 - a.bbox.y0| < rowToleranceW) l := by
  intro row hrow
  rw [clusterRows] at hrow
  refine clusterGo_chain _ [] (-1) ?_ List.chain'_nil ?_ row hrow
  · intro w hw
    exact h w ((List.perm_insertionSort _ words).mem_iff.mp hw)
  · intro w hw
    simp at hw

/-- C3, witness for the amended theorem at the drift fixture. -/
theorem cluster_row_chain_bound_witness :
    ∃ l, ([wDrift0, wDrift15, wDrift30] : List Word).Perm l ∧
      List.Chain' (fun a b => |b.bbox.y0 - a.bbox.y0| < rowToleranceW) l :=
  cluster_row_chain_bound wsDrift (by decide) [wDrift0, wDrift15, wDrift30] (by decide)

/-- C4, counterexample: the generic assembler emits a reading with exactly
2 populated parameters, refuting the claimed ≥ 3 minimum for the generic
pipeline ("a row with only 2 populated parameters never appears"). -/
theorem two_parameter_reading_emitted :
    ∃ w ∈ parseWellDataFromTable rowsTwoParams headersTwoParams "2026-01-01",
      w.parameters.length = 2 := by decide

/-- C4, amended: the calibrated pipeline does enforce a ≥ 5 counted-
parameter minimum, but the generic pipeline only requires ≥ 1 populated
parameter (`Object.keys(parameters).length > 0`). -/
theorem emission_thresholds :
    (∀ (rows : List (List TableCell)) (headers : List String) (rd : String),
        ∀ w ∈ parseWellDataFromTable rows headers rd, 0 < w.parameters.length) ∧
    (∀ (ws : List Word) (today : String),
        ∀ r ∈ specializedGasCompressorExtraction ws today,
          ∃ ria ∈ (compressorAnchors ws.enum).enum,
            5 ≤ (compressorRowData ws.enum ria.2 ria.1).2 ∧
            r.parameters = (compressorRowData ws.enum ria.2 ria.1).1) :=
  ⟨fun rows headers rd => parseWellData_params_pos rows headers rd,
   fun _ _ _ hr => specialized_mem hr⟩

/-- C4, witness for the amended theorem at the two fixtures. -/
theorem emission_thresholds_witness :
    0 < wTwoParams.parameters.length ∧
    ∃ ria ∈ (compressorAnchors wsHighConf.enum).enum,
      5 ≤ (compressorRowData wsHighConf.enum ria.2 ria.1).2 ∧
      ptHighConf.parameters = (compressorRowData wsHighConf.enum ria.2 ria.1).1 :=
  ⟨emission_thresholds.1 rowsTwoParams headersTwoParams "2026-01-01" wTwoParams (by decide),
   emission_thresholds.2 wsHighConf "2026-01-01" ptHighConf (by decide)⟩

/-- C5: confirmed — the specialized `parseTableData` hands over to the
fallback parser exactly when the calibrated extractor (which yields `[]` on
zero words) produced zero readings; on an OCR result with zero words and a
text blob containing the line "14:30 1200 3800 2100 187 12.5" the fallback
runs (no error value exists on this path) and yields at least one reading. -/
theorem fallback_triggering :
    (∀ (ocr : OCRData) (today rd : String),
        parseTableDataC ocr today rd =
          if specializedGasCompressorExtraction ocr.words today = []
          then enhancedFallbackParsing ocr rd
          else ⟨gasCompressorHeaders, [],
                specializedGasCompressorExtraction ocr.words today⟩) ∧
    specializedGasCompressorExtraction blobOCR.words "2026-01-01" = [] ∧
    parseTableDataC blobOCR "2026-01-01" "2026-01-01" =
      enhancedFallbackParsing blobOCR "2026-01-01" ∧
    1 ≤ (enhancedFallbackParsing blobOCR "2026-01-01").wellData.length := by
  refine ⟨?_, by decide, by decide, by decide⟩
  intro ocr today rd
  rw [parseTableDataC]
  by_cases hw : ocr.words.length > 0
  · rw [if_pos hw]
    by_cases hs : specializedGasCompressorExtraction ocr.words today = []
    · rw [hs]
      simp
    · have hpos : (specializedGasCompressorExtraction ocr.words today).length > 0 :=
        List.length_pos.mpr hs
      rw [if_pos hpos, if_neg hs]
  · rw [if_neg hw]
    have hnil : ocr.words = [] := List.length_eq_zero.mp (Nat.eq_zero_of_not_pos hw)
    have hspec : specializedGasCompressorExtraction ocr.words today = [] := by
      rw [hnil]
      rfl
    rw [hspec]
    simp

/-- C6: confirmed — `extractValueAndUnit` is a total function; on the empty
string and whenever none of the three numeric patterns matches it returns
the whole trimmed text as the value with an empty unit, and in particular
`extractValueAndUnit "n/a" = {value := "n/a", unit := ""}`. -/
theorem extractValueAndUnit_total_fallthrough :
    extractValueAndUnit "n/a" = ⟨"n/a", ""⟩ ∧
    ∀ s : String, pat1Match s.data = none → pat2Match s.data = none →
      pat3Match s.data = none → extractValueAndUnit s = ⟨jsTrim s, ""⟩ := by
  refine ⟨by decide, ?_⟩
  intro s h1 h2 h3
  by_cases hs : s = ""
  · subst hs
    decide
  · simp only [extractValueAndUnit, if_neg hs, h1, h2, h3]

/-- C6, witness at "n/a". -/
theorem extractValueAndUnit_total_fallthrough_witness :
    pat1Match "n/a".data = none ∧ extractValueAndUnit "n/a" = ⟨jsTrim "n/a", ""⟩ :=
  ⟨by decide,
   extractValueAndUnit_total_fallthrough.2 "n/a" (by decide) (by decide) (by decide)⟩

/-- C7: confirmed — in the calibrated strategy a row word is matched against
`GAS_COMPRESSOR_COLUMNS.find?`, i.e. the FIRST column in definition order
whose expectedX is within tolerance of the word's horizontal center; a word
inside no column's tolerance leaves the row state unchanged (silent
exclusion, no error value), and a matched word can only add or overwrite the
entry named after its matched column. -/
theorem calibrated_column_assignment (rowIndex : Nat)
    (st : List (String × ParameterReading) × Nat) (w : Word) :
    (findColumn (wordCenterX w) = none → processRowWord rowIndex st w = st) ∧
    (∀ col, findColumn (wordCenterX w) = some col →
      (|wordCenterX w - col.expectedXPosition| ≤ col.tolerance ∧
       ∃ pre post, GAS_COMPRESSOR_COLUMNS = pre ++ col :: post ∧
         ∀ c ∈ pre, ¬(|wordCenterX w - c.expectedXPosition| ≤ c.tolerance)) ∧
      ∀ kv ∈ (processRowWord rowIndex st w).1, kv ∈ st.1 ∨ kv.1 = colName col) := by
  constructor
  · intro h
    rw [processRowWord, h]
  · intro col hcol
    have hfind := hcol
    rw [findColumn, List.find?_eq_some] at hfind
    obtain ⟨hp, as, bs, heq, hall⟩ := hfind
    refine ⟨⟨?_, as, bs, heq, ?_⟩, ?_⟩
    · have hq := of_decide_eq_true hp
      rwa [qabs_eq, qsub_eq] at hq
    · intro c hc
      have hfa := hall c hc
      rw [Bool.not_eq_eq_eq_not, Bool.not_true] at hfa
      have hq := of_decide_eq_false hfa
      rwa [qabs_eq, qsub_eq] at hq
    · intro kv hkv
      rw [processRowWord, hcol] at hkv
      rcases hm : pat2Match (cleanNumericText w.text).data with _ | m <;>
        rw [hm] at hkv <;> dsimp only at hkv
      · split at hkv
        · rcases insertJS_mem kv hkv with h1 | h1
          · exact Or.inl h1
          · right
            rw [h1]
        · exact Or.inl hkv
      · split at hkv
        · rcases insertJS_mem kv hkv with h1 | h1
          · exact Or.inl h1
          · right
            rw [h1]
        · exact Or.inl hkv

/-- C7, witness: a word at center 5000 is silently dropped; a word at
center 110 is within tolerance of the Press column it is assigned to. -/
theorem calibrated_column_assignment_witness :
    processRowWord 0 ([], 0) wFarRight = ([], 0) ∧
    |wordCenterX wOnPress - (110 : ℚ)| ≤ 20 :=
  ⟨(calibrated_column_assignment 0 ([], 0) wFarRight).1 (by decide),
   (((calibrated_column_assignment 0 ([], 0) wOnPress).2
      ⟨"frame_lube_press", "Frame Lube Oil", "Press", "Kg/cm²", 110, 20⟩
      (by decide)).1).1⟩

/-- C8, counterexample: the specialized variant's `processOCROnCanvas` has
no empty-text check — on an OCR result with empty text (and no words) it
returns an ok empty-readings table instead of the claimed thrown
"no text extracted" error. -/
theorem specialized_empty_text_no_error :
    processOCROnCanvasC ⟨"", []⟩ "2026-01-01" "2026-01-01" =
      Except.ok ⟨["Time", "Gas Compressor Parameters"], [], []⟩ := by
  rw [processOCROnCanvasC]
  have h : parseTableDataC ⟨"", []⟩ "2026-01-01" "2026-01-01" =
      ⟨["Time", "Gas Compressor Parameters"], [], []⟩ := by decide
  rw [h]

/-- C8, amended: only the tsx pipeline throws — its `processOCROnCanvas`
fails with "No text was extracted from the document" exactly when the OCR
result is absent or has empty text and succeeds otherwise, while the
specialized variant never produces an error at all, returning a (possibly
empty) table even for empty text. -/
theorem noText_error_propagation :
    (∀ rd : String, processOCROnCanvasW none rd =
        Except.error "No text was extracted from the document") ∧
    (∀ (d : OCRData) (rd : String), d.text = "" →
        processOCROnCanvasW (some d) rd =
          Except.error "No text was extracted from the document") ∧
    (∀ (d : OCRData) (rd : String), d.text ≠ "" →
        processOCROnCanvasW (some d) rd = Except.ok (parseTableDataW d rd)) ∧
    (∀ (ocr : OCRData) (today rd : String),
        processOCROnCanvasC ocr today rd = Except.ok (parseTableDataC ocr today rd)) := by
  refine ⟨fun _ => rfl, ?_, ?_, fun _ _ _ => rfl⟩
  · intro d rd h
    simp [processOCROnCanvasW, h]
  · intro d rd h
    simp [processOCROnCanvasW, h]

/-- C8, witness for the amended theorem. -/
theorem noText_error_propagation_witness :
    processOCROnCanvasW (some ⟨"", []⟩) "2026-01-01" =
      Except.error "No text was extracted from the document" ∧
    processOCROnCanvasW (some ⟨"x", []⟩) "2026-01-01" =
      Except.ok (parseTableDataW ⟨"x", []⟩ "2026-01-01") :=
  ⟨noText_error_propagation.2.1 ⟨"", []⟩ "2026-01-01" rfl,
   noText_error_propagation.2.2.1 ⟨"x", []⟩ "2026-01-01" (by decide)⟩

/-- C9, counterexample: the fallback parser drops only the FIRST numeric
substring of a qualifying line, but a "HH:MM" identifier contributes two
numeric substrings — on the blob line "14:30 1200 3800 2100 187 12.5" the
minutes component "30" of the identifier is emitted as the value of the
first data parameter, refuting "no component of the identifier itself is
emitted as a parameter value". -/
theorem fallback_emits_identifier_minutes :
    ∃ r ∈ (enhancedFallbackParsing blobOCR "2026-01-01").wellData,
      r.timeReading = "14:30" ∧
        ∃ kv ∈ r.parameters,
          kv.1 = "Frame Lube Oil - Press" ∧ kv.2.value = "30" := by decide

/-- C9, amended: every parameter emitted by the fallback parser carries the
fixed confidence 0.6, and assignment is positional over the numbers left
after dropping only the first numeric substring — so for a "HH:MM" line the
minutes component becomes the first positional value, as the concrete blob
run shows. -/
theorem fallback_positional_confidence :
    (∀ (ocr : OCRData) (rd : String),
        ∀ r ∈ (enhancedFallbackParsing ocr rd).wellData,
          ∀ kv ∈ r.parameters, kv.2.confidence = 0.6) ∧
    (enhancedFallbackParsing blobOCR "2026-01-01").wellData = [fbReading] := by
  constructor
  · intro ocr rd r hr kv hkv
    rw [q_point_six]
    simp only [enhancedFallbackParsing, List.mem_filterMap] at hr
    obtain ⟨il, _, hf⟩ := hr
    exact fallbackLine_conf hf kv hkv
  · decide

/-- C9, witness for the amended theorem at the blob fixture. -/
theorem fallback_positional_confidence_witness :
    (⟨"30", "Kg/cm²", Rat.divInt 3 5, ⟨1, 0⟩, false⟩ : ParameterReading).confidence = 0.6 :=
  fallback_positional_confidence.1 blobOCR "2026-01-01" fbReading (by decide)
    ("Frame Lube Oil - Press", ⟨"30", "Kg/cm²", Rat.divInt 3 5, ⟨1, 0⟩, false⟩) (by decide)

/-- C10: confirmed — on a row where two tokens (centers 105 and 115) both
map to the Press column, the later token's value "22" overwrites the earlier
"11" while the `parametersFound` counter counts both: the counter reaches 5,
the reading is emitted, yet its parameters map holds only 4 distinct keys. -/
theorem duplicate_column_overwrite :
    specializedGasCompressorExtraction wsDupCol "2026-01-01" = [ptDupCol] ∧
    (compressorRowData wsDupCol.enum (0, ⟨"14:30", 90, ⟨40, 90, 60, 110⟩⟩) 0).2 = 5 ∧
    ptDupCol.parameters.length = 4 ∧
    ((ptDupCol.parameters.find? (fun kv => kv.1 == "Frame Lube Oil - Press")).map
        (fun kv => kv.2.value)) = some "22" := by
  decide

end FieldViz
